import Mathlib

/-!
Verification development for `simple_playlist.py`, a Jellyfin playlist
generator.  The Python source is shallowly embedded below: the HTTP server
is modelled as a function from request parameters to responses, stateful
loops become fuel-indexed recursion, and all text output is built with
`String` concatenation exactly as the source builds it with f-strings.
-/

namespace SimplePlaylist

/-! ## Paginated item fetch (`get_movies_from_library`, lines 103–152)

A page request at a given `StartIndex` either fails (network exception or
non-200 status — the code treats both as "break out of the loop") or
succeeds with a list of items and the server-reported `TotalRecordCount`. -/

inductive PageResp (α : Type) where
  | fail : PageResp α
  | ok : List α → Nat → PageResp α
deriving DecidableEq

/-- The `while True:` loop of `get_movies_from_library` (lines 130–151),
indexed by fuel.  State: accumulated items `acc` (`all_items`), the current
offset `idx` (`start_index`), and the number of HTTP calls issued so far
(`calls`, for call-count claims).  Per iteration: issue the request at
`idx`; on failure return the partial `acc`; on success extend `acc` with
the received items, stop if the accumulated length has reached the reported
total, otherwise advance the offset by the count of items just received.
`none` means the fuel ran out with the loop still running. -/
def fetchLoop {α : Type} (srv : Nat → PageResp α) :
    Nat → List α → Nat → Nat → Option (List α × Nat)
  | 0, _, _, _ => none
  | fuel + 1, acc, idx, calls =>
    match srv idx with
    | .fail => some (acc, calls + 1)
    | .ok items total =>
      if total ≤ (acc ++ items).length then
        some (acc ++ items, calls + 1)
      else
        fetchLoop srv fuel (acc ++ items) (idx + items.length) (calls + 1)

/-- Entry point of the fetch: `all_items = []`, `start_index = 0` (lines
125–126), no calls issued yet. -/
def getMoviesFromLibrary {α : Type} (srv : Nat → PageResp α) (fuel : Nat) :
    Option (List α × Nat) :=
  fetchLoop srv fuel [] 0 0

/-- The fetch loop diverges on a server: no amount of fuel makes it
terminate. -/
def fetchDiverges {α : Type} (srv : Nat → PageResp α) : Prop :=
  ∀ fuel, getMoviesFromLibrary srv fuel = none

/-- A well-behaved server holding the item list `L`, answering a request at
offset `idx` with the next `P` items and the true total `L.length`
(`Limit` is 1000 in the source; `P` is kept general here). -/
def goodServer {α : Type} (L : List α) (P : Nat) : Nat → PageResp α :=
  fun idx => .ok ((L.drop idx).take P) L.length

/-- Number of further calls the loop needs on `goodServer L P` when the
next request offset is `idx`: `⌈(N − idx)/P⌉`, but at least one call (the
call that discovers the total) is always issued. -/
def remCalls (N idx P : Nat) : Nat :=
  max 1 ((N - idx + P - 1) / P)

theorem remCalls_last {N idx P : Nat} (hP : 0 < P) (h : N ≤ idx + P) :
    remCalls N idx P = 1 := by
  have hlt : (N - idx + P - 1) / P < 2 := by
    rw [Nat.div_lt_iff_lt_mul hP]
    omega
  unfold remCalls
  omega

theorem remCalls_step {N idx P : Nat} (hP : 0 < P) (h : idx + P < N) :
    remCalls N idx P = remCalls N (idx + P) P + 1 := by
  have h1 : N - idx + P - 1 = (N - idx - 1) + P := by omega
  have h2 : N - (idx + P) + P - 1 = N - idx - 1 := by omega
  have h3 : (N - idx - 1 + P) / P = (N - idx - 1) / P + 1 :=
    Nat.add_div_right _ hP
  have h4 : 1 ≤ (N - idx - 1) / P := by
    rw [Nat.one_le_div_iff hP]
    omega
  unfold remCalls
  rw [h1, h2, h3]
  omega

theorem fetchLoop_good {α : Type} (L : List α) (P : Nat) (hP : 0 < P) :
    ∀ (fuel idx calls : Nat), idx ≤ L.length →
      remCalls L.length idx P ≤ fuel →
      fetchLoop (goodServer L P) fuel (L.take idx) idx calls =
        some (L, calls + remCalls L.length idx P) := by
  intro fuel
  induction fuel with
  | zero =>
    intro idx calls _ hfuel
    exfalso
    have : 1 ≤ remCalls L.length idx P := le_max_left _ _
    omega
  | succ fuel ih =>
    intro idx calls hidx hfuel
    have hacc : L.take idx ++ (L.drop idx).take P = L.take (idx + P) :=
      (List.take_add L idx P).symm
    have hlen : (L.take (idx + P)).length = min (idx + P) L.length :=
      List.length_take _ _
    by_cases hend : L.length ≤ idx + P
    · have hbreak : L.length ≤ (L.take idx ++ (L.drop idx).take P).length := by
        rw [hacc, hlen]
        omega
      have htake : L.take (idx + P) = L := List.take_of_length_le hend
      rw [remCalls_last hP hend]
      simp only [fetchLoop, goodServer]
      rw [if_pos hbreak, hacc, htake]
    · push_neg at hend
      have hnobreak : ¬ L.length ≤ (L.take idx ++ (L.drop idx).take P).length := by
        rw [hacc, hlen]
        omega
      have hitems : ((L.drop idx).take P).length = P := by
        rw [List.length_take, List.length_drop]
        omega
      have hrem : remCalls L.length idx P = remCalls L.length (idx + P) P + 1 :=
        remCalls_step hP hend
      have hrec := ih (idx + P) (calls + 1) (by omega) (by omega)
      have hstep : fetchLoop (goodServer L P) (fuel + 1) (L.take idx) idx calls
          = fetchLoop (goodServer L P) fuel (L.take (idx + P)) (idx + P)
              (calls + 1) := by
        simp only [fetchLoop, goodServer]
        rw [if_neg hnobreak, hacc, hitems]
      rw [hstep, hrec, hrem]
      exact congrArg (fun n => some (L, n)) (by omega)

/-- **C1.**  For every server-held item list `L` of size `N` served with
page size `P > 0` (the source fixes `P = 1000`), the paginated fetch
terminates and returns exactly `L` — so exactly `N` entries, each served
item exactly once, in the order received — issuing
`max 1 ⌈N/P⌉ = (N + P − 1)/P ⊔ 1` calls: for `N > 0` this is exactly
`⌈N/P⌉`; for `N = 0` a single (short, empty) page is fetched to learn the
total.  The offset starts at 0 and advances by the count of items received
(see `fetchLoop`), and the loop stops as soon as the accumulated count
reaches the reported total. -/
theorem pagination_complete {α : Type} (L : List α) (P : Nat) (hP : 0 < P) :
    getMoviesFromLibrary (goodServer L P) (L.length + 1) =
      some (L, max 1 ((L.length + P - 1) / P)) := by
  have hfuel : remCalls L.length 0 P ≤ L.length + 1 := by
    have hNP : L.length ≤ L.length * P := Nat.le_mul_of_pos_right _ hP
    have hdiv : (L.length + P - 1) / P < L.length + 2 := by
      rw [Nat.div_lt_iff_lt_mul hP]
      have hmul : (L.length + 2) * P = L.length * P + 2 * P := by ring
      omega
    unfold remCalls
    simp only [Nat.sub_zero]
    omega
  have h := fetchLoop_good L P hP (L.length + 1) 0 0 (Nat.zero_le _) hfuel
  simpa [getMoviesFromLibrary, remCalls] using h

/-- Witness for `pagination_complete` at the page size of the source,
`P = 1000`, on a concrete three-item list: one call, all items returned in
order. -/
theorem pagination_complete_witness :
    getMoviesFromLibrary (goodServer [10, 20, 30] 1000) 4 =
      some ([10, 20, 30], max 1 ((3 + 1000 - 1) / 1000)) :=
  pagination_complete [10, 20, 30] 1000 (by decide)

theorem fetchLoop_zero_page {α : Type} :
    ∀ (fuel calls : Nat),
      fetchLoop (fun _ => PageResp.ok ([] : List α) 1) fuel [] 0 calls =
        none := by
  intro fuel
  induction fuel with
  | zero => intro calls; rfl
  | succ fuel ih =>
    intro calls
    simpa [fetchLoop] using ih (calls + 1)

/-- **C2, counterexample.**  A server that keeps answering status 200 with
an empty item list and reported total 1 (a zero-item page with the total
not yet reached) makes the fetch loop of `get_movies_from_library` run
forever: the offset advances by 0 and the accumulated count never reaches
the total, so the claim "never loops forever … including zero-item pages"
fails on the code. -/
theorem pagination_zero_page_diverges :
    fetchDiverges (fun _ => PageResp.ok ([] : List Unit) 1) := by
  intro fuel
  exact fetchLoop_zero_page fuel 0

/-- **C2, amended.**  If every successful response carries at least one
item and reports a total of at most `T`, the loop — which advances the
offset by the actual count of items received, never the nominal page
size — terminates within `T + 1` calls (failed calls end the loop at
once).  Zero-item successful pages below the reported total are excluded:
`pagination_zero_page_diverges` shows they make the loop spin forever. -/
theorem pagination_terminates {α : Type} (srv : Nat → PageResp α) (T : Nat)
    (h : ∀ idx items total, srv idx = .ok items total →
      items ≠ [] ∧ total ≤ T) :
    (getMoviesFromLibrary srv (T + 1)).isSome := by
  suffices hgen : ∀ fuel (acc : List α) idx calls,
      T - acc.length < fuel → (fetchLoop srv fuel acc idx calls).isSome by
    exact hgen (T + 1) [] 0 0 (by simp)
  intro fuel
  induction fuel with
  | zero => intro acc idx calls hlt; omega
  | succ fuel ih =>
    intro acc idx calls hlt
    match hsrv : srv idx with
    | .fail => simp [fetchLoop, hsrv]
    | .ok items total =>
      by_cases hbreak : total ≤ acc.length + items.length
      · simp [fetchLoop, hsrv, hbreak]
      · obtain ⟨hne, hT⟩ := h idx items total hsrv
        have hpos : 0 < items.length := List.length_pos.mpr hne
        have hlen : (acc ++ items).length = acc.length + items.length :=
          List.length_append _ _
        have hnext : T - (acc ++ items).length < fuel := by
          rw [hlen]
          omega
        simpa [fetchLoop, hsrv, hbreak] using ih (acc ++ items)
          (idx + items.length) (calls + 1) hnext

/-- Witness for `pagination_terminates`: a concrete server always serving a
one-item page with total 1; the fetch terminates within 2 calls. -/
theorem pagination_terminates_witness :
    (getMoviesFromLibrary (fun _ => PageResp.ok [()] 1) 2).isSome :=
  pagination_terminates (fun _ => PageResp.ok [()] 1) 1
    (fun _ items total heq => by
      injection heq with h1 h2
      subst h1
      subst h2
      exact ⟨by decide, le_refl 1⟩)

/-! ## Data model

A fetched movie record as the code reads it: `movie.get('Id')` (no
default, so absent is `none`), `movie.get('Name', 'Unknown')`,
`movie.get('RunTimeTicks', 0)`.  Absent JSON fields are `none`; the
defaults are applied at the use sites, as in the source. -/

structure MovieItem where
  id : Option String
  name : Option String
  runTimeTicks : Option Int
deriving DecidableEq

/-- The URL-construction mode.  The source passes the strings `'simple'`
and `'with_key'`; the `url_types` list is only ever built from these two
literals (lines 327–340), so the mode is embedded as a two-constructor
type. -/
inductive UrlType where
  | simple
  | with_key
deriving DecidableEq

/-- Duration rendering (lines 205–206, duplicated at 403–404):
`duration_sec = int(duration_ticks // 10000000) if duration_ticks else -1`
with `duration_ticks = movie.get('RunTimeTicks', 0)`.  Python `//` on
integers is floor division, i.e. `Int.fdiv`; `0` (and hence an absent
field) is falsy and yields the sentinel `-1`. -/
def durationSec (m : MovieItem) : Int :=
  let duration_ticks := m.runTimeTicks.getD 0
  if duration_ticks ≠ 0 then Int.fdiv duration_ticks 10000000 else -1

/-- `get_stream_url_simple` (lines 173–176). -/
def getStreamUrlSimple (server_url item_id : String) : String :=
  server_url ++ "/Videos/" ++ item_id ++ "/stream.mp4?static=true"

/-- `get_stream_url_with_key` (lines 178–180). -/
def getStreamUrlWithKey (server_url api_key item_id : String) : String :=
  server_url ++ "/Videos/" ++ item_id ++ "/stream.mp4?api_key=" ++ api_key
    ++ "&static=true"

/-! ## Playlist rendering -/

/-- One iteration of the per-movie rendering loop (lines 202–218; the
same loop appears inline at lines 400–413 — the per-library version has an
extra `else` fallback to the simple URL that is unreachable for the two
modes actually passed).  `movie.get('Id')` is `None` when absent, and
Python `if item_id:` skips both `None` and the empty string; a skipped
movie contributes nothing. -/
def movieEntry (ut : UrlType) (server_url api_key : String)
    (m : MovieItem) : String :=
  let item_id := m.id.getD ""
  let name := m.name.getD "Unknown"
  if item_id ≠ "" then
    let url := match ut with
      | .simple => getStreamUrlSimple server_url item_id
      | .with_key => getStreamUrlWithKey server_url api_key item_id
    "#EXTINF:" ++ toString (durationSec m) ++ "," ++ name ++ "\n"
      ++ url ++ "\n"
  else ""

/-- The movie loop: successive `playlist +=` for each movie in order. -/
def entriesText (ut : UrlType) (server_url api_key : String) :
    List MovieItem → String
  | [] => ""
  | m :: ms => movieEntry ut server_url api_key m
      ++ entriesText ut server_url api_key ms

/-- The `# URL Format: …` header comment (lines 194/197; the combined
playlist at lines 396/398 emits the same line followed by an extra blank
line). -/
def urlFormatLine (ut : UrlType) (server_url : String) : String :=
  match ut with
  | .simple =>
    "# URL Format: " ++ server_url ++ "/Videos/ID/stream.mp4?static=true\n"
  | .with_key =>
    "# URL Format: " ++ server_url
      ++ "/Videos/ID/stream.mp4?api_key=XXX&static=true\n"

/-- The `# Note: …` header comment emitted only by
`generate_playlist_for_library` (lines 195/198); the combined path has no
counterpart. -/
def noteLine (ut : UrlType) : String :=
  match ut with
  | .simple => "# Note: May work without authentication in VLC\n"
  | .with_key => "# Note: Contains API key in URL\n"

/-- `generate_playlist_for_library` (lines 182–220): `None` for an empty
movie list, else header block followed by the rendered entries. -/
def generatePlaylistForLibrary (movies : List MovieItem)
    (library_name : String) (ut : UrlType) (server_url api_key : String) :
    Option String :=
  if movies = [] then none
  else some
    ("#EXTM3U\n"
      ++ ("# Jellyfin Playlist - " ++ library_name ++ "\n")
      ++ ("# Generated from: " ++ server_url ++ "\n")
      ++ ("# Total movies: " ++ toString movies.length ++ "\n")
      ++ (urlFormatLine ut server_url ++ noteLine ut)
      ++ "\n"
      ++ entriesText ut server_url api_key movies)

/-- The inline combined-playlist rendering of `generate_playlists`
(lines 390–413): same header block but the fixed name `All Movies`, the
URL-format line followed by a blank line, and no `# Note:` line. -/
def combinedPlaylistText (movies : List MovieItem) (ut : UrlType)
    (server_url api_key : String) : String :=
  "#EXTM3U\n"
    ++ "# Jellyfin Playlist - All Movies\n"
    ++ ("# Generated from: " ++ server_url ++ "\n")
    ++ ("# Total movies: " ++ toString movies.length ++ "\n")
    ++ (urlFormatLine ut server_url ++ "\n")
    ++ entriesText ut server_url api_key movies

/-- The header text shared verbatim by the two rendering paths when the
library name is `All Movies`: format marker, title, source server, count,
and the URL-format comment. -/
def commonHeaderAll (count : Nat) (ut : UrlType) (server_url : String) :
    String :=
  "#EXTM3U\n"
    ++ "# Jellyfin Playlist - All Movies\n"
    ++ ("# Generated from: " ++ server_url ++ "\n")
    ++ ("# Total movies: " ++ toString count ++ "\n")
    ++ urlFormatLine ut server_url

theorem sappend_assoc (a b c : String) : a ++ b ++ c = a ++ (b ++ c) :=
  String.append_assoc a b c

/-- **C8.**  Rendered duration: ticks absent or zero gives the sentinel
`-1`; nonzero ticks give the floor division by 10,000,000; in particular
`36_000_000_000` ticks render as `3600` seconds. -/
theorem duration_conversion :
    (∀ m : MovieItem, m.runTimeTicks = none → durationSec m = -1)
    ∧ (∀ m : MovieItem, m.runTimeTicks = some 0 → durationSec m = -1)
    ∧ (∀ (m : MovieItem) (t : Int), m.runTimeTicks = some t → t ≠ 0 →
        durationSec m = Int.fdiv t 10000000)
    ∧ (∀ m : MovieItem, m.runTimeTicks = some 36000000000 →
        durationSec m = 3600) := by
  refine ⟨?_, ?_, ?_, ?_⟩
  · intro m hm
    simp [durationSec, hm]
  · intro m hm
    simp [durationSec, hm]
  · intro m t hm ht
    simp [durationSec, hm, ht]
  · intro m hm
    simp [durationSec, hm]

/-- Witness for `duration_conversion` at concrete records. -/
theorem duration_conversion_witness :
    durationSec ⟨some "a", some "n", none⟩ = -1
    ∧ durationSec ⟨some "a", some "n", some 0⟩ = -1
    ∧ durationSec ⟨some "a", some "n", some 7⟩ = Int.fdiv 7 10000000
    ∧ durationSec ⟨some "a", some "n", some 36000000000⟩ = 3600 :=
  ⟨duration_conversion.1 _ rfl, duration_conversion.2.1 _ rfl,
    duration_conversion.2.2.1 _ 7 rfl (by decide),
    duration_conversion.2.2.2 _ rfl⟩

/-- **C9.**  The simple-mode stream URL is exactly
`{server}/Videos/{id}/stream.mp4?static=true` (the token is not an input
of this mode at all), the with-key URL is exactly
`{server}/Videos/{id}/stream.mp4?api_key={token}&static=true` with the
literal token, and the concrete instances from the spec hold. -/
theorem stream_url_formats :
    (∀ server_url item_id : String,
      getStreamUrlSimple server_url item_id =
        server_url ++ "/Videos/" ++ item_id ++ "/stream.mp4?static=true")
    ∧ (∀ server_url api_key item_id : String,
      getStreamUrlWithKey server_url api_key item_id =
        server_url ++ "/Videos/" ++ item_id ++ "/stream.mp4?api_key="
          ++ api_key ++ "&static=true")
    ∧ getStreamUrlSimple "http://host:8096" "abc123" =
        "http://host:8096/Videos/abc123/stream.mp4?static=true"
    ∧ getStreamUrlWithKey "http://host:8096" "tok" "abc123" =
        "http://host:8096/Videos/abc123/stream.mp4?api_key=tok&static=true" :=
  ⟨fun _ _ => rfl, fun _ _ _ => rfl, by decide, by decide⟩

theorem sempty_append (s : String) : "" ++ s = s := by
  cases s
  simp [String.append]

/-- **C10.**  Rendered entries come exactly from the movies whose
identifier is present and non-empty: the entry text is unchanged when the
list is restricted to those movies, so a record with a missing or empty
`Id` contributes neither an `#EXTINF` line nor a URL line, and rendering
is total (no error). -/
theorem rendered_entries_have_ids (ut : UrlType)
    (server_url api_key : String) (movies : List MovieItem) :
    entriesText ut server_url api_key movies =
      entriesText ut server_url api_key
        (movies.filter (fun m => m.id.getD "" != "")) := by
  induction movies with
  | nil => rfl
  | cons m ms ih =>
    by_cases hid : m.id.getD "" = ""
    · have hentry : movieEntry ut server_url api_key m = "" := by
        simp [movieEntry, hid]
      simp [entriesText, List.filter_cons, hid, hentry, ih, sempty_append]
    · simp [entriesText, List.filter_cons, hid, ih]

/-- A concrete movie record used in counterexamples. -/
def movSample : MovieItem :=
  { id := some "abc123", name := some "A Movie",
    runTimeTicks := some 36000000000 }

set_option maxRecDepth 8192 in
/-- **C6, counterexample.**  On the same one-movie list, the same server,
the library name `All Movies` and the same (simple) mode, the per-library
renderer and the inline combined renderer produce different text: the
per-library header carries a `# Note: …` comment line that the combined
path never emits. -/
theorem duplicated_render_differs :
    generatePlaylistForLibrary [movSample] "All Movies" .simple
        "http://host:8096" "tok"
      ≠ some (combinedPlaylistText [movSample] .simple
        "http://host:8096" "tok") := by
  decide

/-- **C6, amended.**  The two rendering paths agree on everything except
one header comment: on a non-empty movie list both produce the shared
header followed by the same entry body, but the per-library path inserts
the `# Note: …` line after the URL-format line while the combined path
inserts only the blank separator.  The duplicated entry-rendering logic is
therefore output-identical; the headers differ by exactly that line. -/
theorem render_paths_differ_only_in_note (ut : UrlType)
    (server_url api_key : String) (movies : List MovieItem)
    (h : movies ≠ []) :
    generatePlaylistForLibrary movies "All Movies" ut server_url api_key =
      some (commonHeaderAll movies.length ut server_url ++ noteLine ut
        ++ "\n" ++ entriesText ut server_url api_key movies)
    ∧ combinedPlaylistText movies ut server_url api_key =
      commonHeaderAll movies.length ut server_url
        ++ "\n" ++ entriesText ut server_url api_key movies := by
  constructor
  · rw [generatePlaylistForLibrary, if_neg h]
    rw [show "# Jellyfin Playlist - " ++ "All Movies" ++ "\n" =
      "# Jellyfin Playlist - All Movies\n" from rfl]
    simp only [commonHeaderAll, sappend_assoc]
  · simp only [combinedPlaylistText, commonHeaderAll, sappend_assoc]

/-- Witness for `render_paths_differ_only_in_note` on a concrete one-movie
list. -/
theorem render_paths_differ_only_in_note_witness :
    generatePlaylistForLibrary [movSample] "All Movies" .simple "s" "k" =
      some (commonHeaderAll 1 .simple "s" ++ noteLine .simple
        ++ "\n" ++ entriesText .simple "s" "k" [movSample])
    ∧ combinedPlaylistText [movSample] .simple "s" "k" =
      commonHeaderAll 1 .simple "s"
        ++ "\n" ++ entriesText .simple "s" "k" [movSample] :=
  render_paths_differ_only_in_note .simple "s" "k" [movSample] (by decide)

/-! ## Library discovery (`get_libraries`, lines 44–80, and
`get_library_types`, lines 82–101)

A media folder as read from the `/Library/MediaFolders` response:
`item.get('Name', '')` and `item.get('Id', '')`.  The one-item probe query
of `get_library_types` is modelled as a function from the library id to the
probe response. -/

structure MediaFolder where
  name : Option String
  id : Option String
deriving DecidableEq

structure ProbeItem where
  itemType : Option String
deriving DecidableEq

inductive ProbeResp where
  | fail : ProbeResp
  | ok : Nat → List ProbeItem → ProbeResp
deriving DecidableEq

/-- `get_library_types` (lines 82–101): on status 200 with a non-empty item
list, the singleton of `items[0].get('Type', 'Unknown')`; on any exception,
non-200 status, or empty item list, `['Unknown']`.  The bare
`except: pass` means this never raises. -/
def getLibraryTypes (resp : ProbeResp) : List String :=
  match resp with
  | .fail => ["Unknown"]
  | .ok status items =>
    if status = 200 then
      match items with
      | [] => ["Unknown"]
      | it :: _ => [it.itemType.getD "Unknown"]
    else ["Unknown"]

/-- Python substring containment `needle in hay` on character lists. -/
def containsSub (needle : List Char) : List Char → Bool
  | [] => needle.isEmpty
  | c :: rest => needle.isPrefixOf (c :: rest) || containsSub needle rest

/-- Python `needle in hay` for strings. -/
def strContains (hay needle : String) : Bool :=
  containsSub needle.data hay.data

/-- Python `str.lower()` (ASCII-adequate for the fixed needle `movie`),
character by character. -/
def lowerStr (s : String) : String := ⟨s.data.map Char.toLower⟩

structure LibraryEntry where
  id : String
  name : String
  contentType : String
deriving DecidableEq

/-- The per-folder classification of `get_libraries` (lines 54–74):
a non-empty name containing `movie` or `movies` case-insensitively is a
`Movie` library; otherwise a non-empty-named folder is probed and included
as `Mixed` exactly when `'Movie'` is among the probed types; a folder with
an empty (or absent) name is dropped without being probed, because Python
`if library_name:`/`elif library_name:` treats `''` as falsy. -/
def classifyFolder (probe : String → ProbeResp) (f : MediaFolder) :
    Option LibraryEntry :=
  let library_name := f.name.getD ""
  let library_id := f.id.getD ""
  if library_name ≠ "" ∧ (strContains (lowerStr library_name) "movie"
      || strContains (lowerStr library_name) "movies") then
    some ⟨library_id, library_name, "Movie"⟩
  else if library_name ≠ "" then
    if (getLibraryTypes (probe library_id)).contains "Movie" then
      some ⟨library_id, library_name, "Mixed"⟩
    else none
  else none

/-- Outcome of the `/Library/MediaFolders` request: a network exception, or
a status code with the folder list. -/
inductive LibResp where
  | exc : LibResp
  | ok : Nat → List MediaFolder → LibResp

/-- `get_libraries` (lines 44–80) with its user-visible messages: an
exception prints `Error fetching libraries: …` and returns `[]`; a non-200
status silently falls through to `return []`; a 200 response classifies
each folder in order.  The function is total: no path raises. -/
def getLibrariesRun (resp : LibResp) (probe : String → ProbeResp) :
    List LibraryEntry × List String :=
  match resp with
  | .exc => ([], ["Error fetching libraries"])
  | .ok status folders =>
    if status = 200 then (folders.filterMap (classifyFolder probe), [])
    else ([], [])

/-- The return value of `get_libraries`. -/
def getLibraries (resp : LibResp) (probe : String → ProbeResp) :
    List LibraryEntry :=
  (getLibrariesRun resp probe).1

/-- The classification rule as the spec words it: for each entry, a name
containing `movie` case-insensitively gives a `Movie` library; *otherwise*
the folder is probed and included as `Mixed` exactly when the probed type
equals `Movie`, else excluded.  (No special case for empty names.) -/
def specClassifyFolder (probe : String → ProbeResp) (f : MediaFolder) :
    Option LibraryEntry :=
  let library_name := f.name.getD ""
  let library_id := f.id.getD ""
  if strContains (lowerStr library_name) "movie" then
    some ⟨library_id, library_name, "Movie"⟩
  else if (getLibraryTypes (probe library_id)).contains "Movie" then
    some ⟨library_id, library_name, "Mixed"⟩
  else none

def probeAlwaysMovie : String → ProbeResp :=
  fun _ => .ok 200 [⟨some "Movie"⟩]

/-- **C5, counterexample.**  A fetched media folder with an empty name
(Python `item.get('Name', '')` also yields `''` when the field is absent)
is dropped by the code without any probe, while the claimed rule would
probe it and include it as `Mixed` when the probe reports a movie. -/
theorem discovery_empty_name_divergence :
    getLibraries (.ok 200 [⟨some "", some "x"⟩]) probeAlwaysMovie = []
    ∧ specClassifyFolder probeAlwaysMovie ⟨some "", some "x"⟩ =
        some ⟨"x", "", "Mixed"⟩ := by
  constructor
  · decide
  · decide

theorem containsSub_of_prefix {n₁ n₂ : List Char} (hpre : n₁ <+: n₂) :
    ∀ s : List Char, containsSub n₂ s = true → containsSub n₁ s = true := by
  intro s
  induction s with
  | nil =>
    intro h
    simp only [containsSub, List.isEmpty_iff] at h ⊢
    exact List.prefix_nil.mp (h ▸ hpre)
  | cons c rest ih =>
    intro h
    simp only [containsSub, Bool.or_eq_true] at h ⊢
    rcases h with h | h
    · exact Or.inl (List.isPrefixOf_iff_prefix.mpr
        (hpre.trans (List.isPrefixOf_iff_prefix.mp h)))
    · exact Or.inr (ih h)

theorem movie_or_movies (s : String) :
    (strContains s "movie" || strContains s "movies") =
      strContains s "movie" := by
  cases hb : strContains s "movies"
  · simp
  · have h1 : containsSub "movie".data s.data = true :=
      containsSub_of_prefix (by decide) s.data hb
    simp only [strContains] at h1 ⊢
    simp [h1]

def mockFolders : List MediaFolder :=
  [⟨some "Movies", some "id1"⟩, ⟨some "TV Shows", some "id2"⟩]

def mockProbe : String → ProbeResp :=
  fun lid => if lid == "id1" then .ok 200 [⟨some "Movie"⟩]
    else .ok 200 [⟨some "Episode"⟩]

/-- **C5, amended.**  Discovery classifies every fetched folder **with a
non-empty name** exactly as the spec's rule says (the redundant `movies`
disjunct changes nothing), but a folder whose name is empty or absent is
always excluded without a probe; and on the spec's mock server with
libraries `Movies` (probe `Movie`) and `TV Shows` (probe `Episode`),
discovery returns only `Movies`. -/
theorem discovery_classification :
    (∀ (probe : String → ProbeResp) (f : MediaFolder),
      classifyFolder probe f =
        if f.name.getD "" = "" then none else specClassifyFolder probe f)
    ∧ getLibraries (.ok 200 mockFolders) mockProbe =
        [⟨"id1", "Movies", "Movie"⟩] := by
  constructor
  · intro probe f
    by_cases hn : f.name.getD "" = ""
    · simp [classifyFolder, hn]
    · simp only [classifyFolder, specClassifyFolder, if_neg hn, hn,
        ne_eq, not_false_eq_true, true_and, if_true, if_false,
        movie_or_movies]
  · decide

/-- **C7, counterexample.**  On a non-200 response `get_libraries` returns
the empty list but prints nothing: the `if response.status_code == 200`
body is skipped and control falls through to `return []`, so no error
message is surfaced, contradicting the claim. -/
theorem discovery_non200_silent :
    getLibrariesRun (.ok 500 mockFolders) probeAlwaysMovie = ([], []) := by
  decide

/-- **C7, amended.**  On any failure of library discovery `get_libraries`
returns the empty list and never raises (the embedding is a total
function covering every response); an error message is surfaced only for
the network-exception case — a non-200 response returns `[]` silently. -/
theorem discovery_failure_empty :
    (∀ probe, getLibrariesRun .exc probe =
      ([], ["Error fetching libraries"]))
    ∧ (∀ (status : Nat) (folders : List MediaFolder)
        (probe : String → ProbeResp), status ≠ 200 →
        getLibrariesRun (.ok status folders) probe = ([], [])) := by
  constructor
  · intro probe
    rfl
  · intro status folders probe hs
    simp [getLibrariesRun, hs]

/-- Witness for `discovery_failure_empty` at status 404. -/
theorem discovery_failure_empty_witness :
    getLibrariesRun (.ok 404 mockFolders) probeAlwaysMovie = ([], []) :=
  discovery_failure_empty.2 404 mockFolders probeAlwaysMovie (by decide)

/-! ## Combined-playlist emission (`generate_playlists`, lines 383–423) -/

/-- Filename mode tag (lines 351–354). -/
def urlTypeSuffix : UrlType → String
  | .simple => "_simple"
  | .with_key => "_with_api_key"

/-- The combined playlist's fixed filename (line 415). -/
def combinedFilename (ut : UrlType) : String :=
  "jellyfin_ALL_MOVIES" ++ urlTypeSuffix ut ++ ".m3u"

/-- The combined-playlist branch for one URL type (lines 383–423): only
when `len(library_movies) > 1`, concatenate all libraries' movie lists in
the mapping's insertion order, and write one `ALL_MOVIES` file when the
concatenation is non-empty.  The result is the list of (filename, content)
writes this branch performs. -/
def combinedWrites (library_movies : List (String × List MovieItem))
    (ut : UrlType) (server_url api_key : String) : List (String × String) :=
  if 1 < library_movies.length then
    let all_movies_combined := (library_movies.map (fun kv => kv.2)).flatten
    if all_movies_combined = [] then []
    else [(combinedFilename ut,
      combinedPlaylistText all_movies_combined ut server_url api_key)]
  else []

/-- **C4.**  Under the invariant that every selected library group has a
non-empty movie list — `generate_playlists` only ever inserts a group
after `if movies:`/`if all_movies:` (lines 271–272, 294–295, 302–303,
309–310) — the combined `All Movies` file is written iff more than one
group was selected, and when written its content renders the concatenation
of all groups' lists in the mapping's insertion order. -/
theorem combined_playlist_iff (library_movies : List (String × List MovieItem))
    (ut : UrlType) (server_url api_key : String)
    (h : ∀ kv ∈ library_movies, kv.2 ≠ ([] : List MovieItem)) :
    (combinedWrites library_movies ut server_url api_key ≠ []
      ↔ 1 < library_movies.length)
    ∧ (1 < library_movies.length →
      combinedWrites library_movies ut server_url api_key =
        [(combinedFilename ut,
          combinedPlaylistText ((library_movies.map (fun kv => kv.2)).flatten)
            ut server_url api_key)]) := by
  by_cases hlen : 1 < library_movies.length
  · have hjoin : (library_movies.map (fun kv => kv.2)).flatten ≠ [] := by
      cases library_movies with
      | nil => simp at hlen
      | cons kv rest =>
        have hkv : kv.2 ≠ [] := h kv (by simp)
        intro heq
        rw [List.map_cons, List.flatten_cons, List.append_eq_nil] at heq
        exact hkv heq.1
    constructor
    · simp [combinedWrites, hlen, hjoin]
    · intro _
      simp [combinedWrites, hlen, hjoin]
  · constructor
    · simp [combinedWrites, hlen]
    · intro h'
      exact absurd h' hlen

/-- Witness for `combined_playlist_iff` on two concrete groups. -/
theorem combined_playlist_iff_witness :
    (combinedWrites [("Action", [movSample]), ("Drama", [movSample])]
        UrlType.simple "s" "k" ≠ []
      ↔ 1 < ([("Action", [movSample]), ("Drama", [movSample])] :
          List (String × List MovieItem)).length)
    ∧ (1 < ([("Action", [movSample]), ("Drama", [movSample])] :
          List (String × List MovieItem)).length →
      combinedWrites [("Action", [movSample]), ("Drama", [movSample])]
          UrlType.simple "s" "k" =
        [(combinedFilename UrlType.simple,
          combinedPlaylistText
            (([("Action", [movSample]), ("Drama", [movSample])].map
              (fun kv => kv.2)).flatten) UrlType.simple "s" "k")]) :=
  combined_playlist_iff [("Action", [movSample]), ("Drama", [movSample])]
    UrlType.simple "s" "k" (by decide)

/-! ## Summary file (`create_summary_file`, lines 473–542)

The summary text written to the fixed name `PLAYLISTS_SUMMARY.txt`.  The
only input that is neither a server response nor a user choice is
`current_time = datetime.datetime.now().strftime('%Y-%m-%d %H:%M:%S')`
(line 475), passed here as an explicit parameter. -/

/-- The strings `', '.join(url_types)` operates on. -/
def urlTypeName : UrlType → String
  | .simple => "simple"
  | .with_key => "with_key"

/-- `for file in saved_files: summary += f"- {file}\n"` (lines 486–487). -/
def summaryFilesList : List String → String
  | [] => ""
  | f :: fs => "- " ++ f ++ "\n" ++ summaryFilesList fs

/-- The per-library breakdown lines (lines 490–491). -/
def summaryLibsList : List (String × List MovieItem) → String
  | [] => ""
  | (lib_name, movies) :: rest =>
    "- **" ++ lib_name ++ "**: " ++ toString movies.length ++ " movies\n"
      ++ summaryLibsList rest

/-- `sum(len(movies) for movies in library_movies.values())` (line 493). -/
def totalMovies (library_movies : List (String × List MovieItem)) : Nat :=
  (library_movies.map (fun kv => kv.2.length)).sum

/-- The summary text up to and including `## Date: ` (lines 477–480). -/
def summaryDatePrefix (server_url : String) : String :=
  "# Jellyfin Playlists Summary\n\n## Generated from: " ++ server_url
    ++ "\n## Date: "

/-- The summary text after the date field (lines 481–535), verbatim from
the source's f-strings. -/
def summaryAfterDate (saved_files : List String)
    (library_movies : List (String × List MovieItem))
    (url_types : List UrlType) (server_url api_key : String) : String :=
  "\n## URL Types: "
    ++ String.intercalate ", " (url_types.map urlTypeName)
    ++ "\n\n## Playlists Created:\n"
    ++ summaryFilesList saved_files
    ++ "\n## Library Breakdown:\n"
    ++ summaryLibsList library_movies
    ++ "\n## Total Movies: " ++ toString (totalMovies library_movies)
    ++ "\n\n## URL Formats Used:\n\n### Simple URLs (jellyfin_*_simple.m3u):\n"
    ++ server_url
    ++ "/Videos/ITEM_ID/stream.mp4?static=true\n\n### URLs with API Key (jellyfin_*_with_api_key.m3u):\n"
    ++ server_url
    ++ "/Videos/ITEM_ID/stream.mp4?api_key="
    ++ api_key.take 10
    ++ "...&static=true\n\n## Why Simple URLs May Work:\n\n1. **?static=true** parameter may bypass some authentication checks\n2. Jellyfin may have \"Allow playback without authentication\" enabled\n3. Your network may be trusted (local IP range)\n4. Session cookies from browser may still be valid\n\n## Testing:\n\nTo test which URL works:\n1. Get a movie ID from Jellyfin web interface\n2. Try in VLC: "
    ++ server_url
    ++ "/Videos/MOVIE_ID/stream.mp4?static=true\n3. If it plays, use the \"simple\" playlists\n4. If not, try with API key\n\n## VLC Settings (if needed):\n\nIf authentication is required:\n1. Open VLC > Tools > Preferences > Show All Settings\n2. Input/Codecs > Access modules > HTTP\n3. Add header: X-Emby-Token: "
    ++ api_key
    ++ "\n4. OR use URLs with API key\n\n## Security Note:\n\n- URLs with API key expose your API key\n- Anyone with the playlist can access your Jellyfin server\n- Use simple URLs if they work\n- Regenerate API key if playlist is shared accidentally\n"

/-- `create_summary_file` (lines 473–542): the full text written (with
overwrite) to `PLAYLISTS_SUMMARY.txt`. -/
def summaryText (saved_files : List String)
    (library_movies : List (String × List MovieItem))
    (url_types : List UrlType) (server_url api_key current_time : String) :
    String :=
  summaryDatePrefix server_url ++ current_time
    ++ summaryAfterDate saved_files library_movies url_types server_url
        api_key

theorem summaryText_eq_iff (saved_files : List String)
    (library_movies : List (String × List MovieItem))
    (url_types : List UrlType) (server_url api_key t₁ t₂ : String) :
    summaryText saved_files library_movies url_types server_url api_key t₁ =
      summaryText saved_files library_movies url_types server_url api_key t₂
    ↔ t₁ = t₂ := by
  constructor
  · intro h
    unfold summaryText at h
    have hd := congrArg String.data h
    simp only [String.data_append] at hd
    rw [List.append_assoc, List.append_assoc] at hd
    have h1 := List.append_cancel_left hd
    have h2 := List.append_cancel_right h1
    exact String.ext h2
  · intro h
    rw [h]

/-- **C3, counterexample.**  Two runs with identical server responses and
identical user choices but different wall-clock readings write different
bytes to the fixed-name summary file: its `## Date:` line embeds
`datetime.now()`, so the whole output is not a function of server
responses and choices alone. -/
theorem summary_differs_across_runs :
    summaryText ["jellyfin_Movies_simple.m3u"] [("Movies", [movSample])]
        [UrlType.simple] "http://host:8096" "tokentokentoken"
        "2024-01-01 10:00:00"
      ≠ summaryText ["jellyfin_Movies_simple.m3u"] [("Movies", [movSample])]
        [UrlType.simple] "http://host:8096" "tokentokentoken"
        "2024-01-02 10:00:00" := by
  intro h
  have heq := (summaryText_eq_iff _ _ _ _ _ _ _).mp h
  exact absurd heq (by decide)

/-- **C3, amended.**  Every playlist file is a pure function of server
responses and user choices (the rendering definitions above take nothing
else), and the summary file is such a function of those *plus the current
clock reading*: for fixed responses and choices, two runs produce
byte-identical summary text if and only if their clock readings are equal
— the time dependence is confined to the `## Date:` field. -/
theorem summary_deterministic_given_clock (saved_files : List String)
    (library_movies : List (String × List MovieItem))
    (url_types : List UrlType) (server_url api_key t₁ t₂ : String) :
    summaryText saved_files library_movies url_types server_url api_key t₁ =
      summaryText saved_files library_movies url_types server_url api_key t₂
    ↔ t₁ = t₂ :=
  summaryText_eq_iff saved_files library_movies url_types server_url
    api_key t₁ t₂

end SimplePlaylist
